import Mathlib

/-!
# Verification of the yielding work-gang scheduler and the CMS lock verifier

This development embeds, in Lean 4, the two core components of the
concurrency layer of the JDK6 HotSpot concurrent-mark-sweep collector:

* `CMSLockVerifier::assert_locked` from
  `src/hotspot/src/share/vm/gc_implementation/concurrentMarkSweep/cmsLockVerifier.cpp`,
  embedded directly from the C++ source as a Boolean-valued function
  (`true` = the call returns without firing any fatal assertion,
  `false` = some `assert` / `ShouldNotReachHere` on the executed path fires);

* the yielding flexible work gang declared in
  `src/hotspot/src/share/vm/utilities/yieldingWorkgroup.hpp`.  The header
  (the `Status` enumeration, the `set_gang` assertion, the accessors and the
  interface comments) is embedded from the source; the bodies of
  `start_task`, `continue_task`, `abort_task` and `wait_for_gang` live in
  `yieldingWorkgroup.cpp`, which is not part of the excerpt, so the dynamic
  behaviour is modelled from the specification, as flagged on each such
  definition.
-/

/-! ## Part 1: thread roles, mutexes and the runtime environment -/

/-- Classification of the calling thread, as computed by the HotSpot
predicates `is_VM_thread`, `is_ConcurrentGC_thread`, `is_Java_thread`,
`is_GC_task_thread`; `otherThread` stands for a thread answering `false`
to all four (e.g. the watcher thread). The classifications are mutually
exclusive in HotSpot, which the single-constructor encoding reflects. -/
inductive ThreadKind where
  | vmThread
  | concGCThread
  | javaThread
  | gcTaskThread
  | otherThread
deriving DecidableEq

/-- A thread: an identity (standing for the `Thread*` pointer) together
with its role classification. -/
structure Thread where
  tid : Nat
  kind : ThreadKind
deriving DecidableEq

/-- A HotSpot `Mutex`: we only need its owner (`NULL` = unlocked).
`owner` holds the owning thread's identity. -/
structure Mutex where
  owner : Option Nat
deriving DecidableEq

/-- `Mutex::owned_by_self()` as seen from thread `t`. -/
def Mutex.ownedBySelf (m : Mutex) (t : Thread) : Bool :=
  m.owner = some t.tid

/-- `Mutex::is_locked()`. -/
def Mutex.isLocked (m : Mutex) : Bool :=
  m.owner.isSome

/-- The ambient runtime state read by `CMSLockVerifier::assert_locked`:
`Universe::is_fully_initialized()`, the `ParallelGCThreads` flag, the
identities of the singleton VM thread (`VMThread::vm_thread()`) and of the
designated CMS thread (`ConcurrentMarkSweepThread::cmst()`), and the two
CMS-token queries `cms_thread_has_cms_token()` / `vm_thread_has_cms_token()`. -/
structure RuntimeEnv where
  universeInitComplete : Bool
  parallelGCThreads : Nat
  vmThreadId : Nat
  cmstId : Nat
  cmsThreadHasCmsToken : Bool
  vmThreadHasCmsToken : Bool
deriving DecidableEq

namespace CMSLockVerifier

/-- Embedding of `CMSLockVerifier::assert_locked(const Mutex* lock, const
Mutex* p_lock)` (cmsLockVerifier.cpp, lines 38-97).  The result is `true`
when the call returns without any assertion firing and `false` when an
`assert(...)` or `ShouldNotReachHere()` on the executed path fires.  The
branch structure mirrors the source line by line:
early return when the universe is not fully initialized; the `lock == NULL`
branch with its `p_lock == NULL` assertion and role checks; the
`ParallelGCThreads == 0` branch (`assert_lock_strong(lock)`); and the
parallel branch distinguishing VM/concurrent-GC/Java threads, GC task
threads, and everything else (`ShouldNotReachHere`). -/
def assert_locked (st : RuntimeEnv) (myThread : Thread)
    (lock p_lock : Option Mutex) : Bool :=
  if st.universeInitComplete = false then
    true
  else
    match lock with
    | none =>
      match p_lock with
      | some _ => false
      | none =>
        match myThread.kind with
        | ThreadKind.concGCThread =>
          decide (myThread.tid = st.cmstId) && st.cmsThreadHasCmsToken
        | ThreadKind.vmThread =>
          st.vmThreadHasCmsToken
        | k => decide (k = ThreadKind.gcTaskThread)
    | some l =>
      if st.parallelGCThreads = 0 then
        l.ownedBySelf myThread
      else
        match myThread.kind with
        | ThreadKind.vmThread | ThreadKind.concGCThread | ThreadKind.javaThread =>
          l.ownedBySelf myThread &&
          (match p_lock with
           | none => true
           | some p => !p.isLocked || p.ownedBySelf myThread)
        | ThreadKind.gcTaskThread =>
          decide (l.owner = some st.vmThreadId) || decide (l.owner = some st.cmstId)
        | ThreadKind.otherThread => false

end CMSLockVerifier

/-! ## Part 2: the yielding flexible work gang

The `Status` enumeration, the `set_gang` assertion and the accessors are
embedded from `yieldingWorkgroup.hpp` (which is in the excerpt).  The
coordinator bodies (`start_task`, `continue_task`, `wait_for_gang`) live in
`yieldingWorkgroup.cpp`, which is not in the excerpt; they are modelled
from the specification, as marked on each definition. -/

/-- Status of tasks (`yieldingWorkgroup.hpp`, lines 33-42). -/
inductive Status where
  | INACTIVE
  | ACTIVE
  | YIELDING
  | YIELDED
  | ABORTING
  | ABORTED
  | COMPLETING
  | COMPLETED
deriving DecidableEq

/-- `YieldingFlexibleGangTask::set_gang` (`yieldingWorkgroup.hpp`, lines
104-107): `assert(_gang == NULL || gang == NULL, "Clobber without
intermediate reset?"); _gang = gang;`.  The first argument is the task's
current `_gang` field, the second the new value; the result is the new
`_gang` field, or `none`-lifted failure (`Option.none`) when the assertion
fires. -/
def set_gang (curGang newGang : Option Nat) : Option (Option Nat) :=
  if curGang = none ∨ newGang = none then some newGang else none

/-- The fields of a `YieldingFlexibleGangTask` relevant to dispatch
(`yieldingWorkgroup.hpp`, lines 76-138): `_status`, `_requested_size`,
`_actual_size`, and whether `_gang` is non-null. -/
structure TaskState where
  status : Status
  requestedSize : Nat
  actualSize : Nat
  hasGang : Bool
deriving DecidableEq

/-- The fields of a `YieldingFlexibleWorkGang` relevant to the claims
(`yieldingWorkgroup.hpp`, lines 145-207): the total worker count, the
`_active_workers` and `_yielded_workers` counters, and the currently
attached task (`_task`, `none` when idle). -/
structure WorkGangState where
  totalWorkers : Nat
  activeWorkers : Nat
  yieldedWorkers : Nat
  task : Option TaskState
deriving DecidableEq

/-- Modelled from the spec: the body of
`YieldingFlexibleWorkGang::start_task` is in `yieldingWorkgroup.cpp`,
which is not in the excerpt.  Per the specification (section 4.2), `start`
fails with a fatal assertion if a task is already running on this gang
(the header's `set_gang` assertion likewise fires if the task's `_gang` is
already set), resets `active_workers`/`yielded_workers`, computes
`actual_size = min(requested_size, total_workers)`, fails fatally when
zero workers would be granted (section 7: "running with zero granted
workers" is a protocol violation), transitions the task to `ACTIVE` and
releases `actual_size` workers, i.e. worker indices `0 .. actual_size-1`,
each of which invokes `work` once this round.  `none` models the fatal
assertion; otherwise the result is the post-dispatch gang state paired
with the list of released worker indices. -/
def start_task (g : WorkGangState) (t : TaskState) :
    Option (WorkGangState × List Nat) :=
  if g.task.isSome then
    none
  else if t.hasGang then
    none
  else
    if min t.requestedSize g.totalWorkers = 0 then
      none
    else
      some ({ g with
                activeWorkers := min t.requestedSize g.totalWorkers,
                yieldedWorkers := 0,
                task := some { t with
                                 status := Status.ACTIVE,
                                 actualSize := min t.requestedSize g.totalWorkers,
                                 hasGang := true } },
            List.range (min t.requestedSize g.totalWorkers))

/-- Modelled from the spec: the body of
`YieldingFlexibleWorkGang::continue_task` is in `yieldingWorkgroup.cpp`,
which is not in the excerpt.  Per the specification (section 4.2) and the
header's interface comment (`yieldingWorkgroup.hpp`, lines 157-164),
`continue` requires the attached task to be `YIELDED` — in which case it
re-releases the same `actual_size` workers and the round resumes — while a
`COMPLETED` task "will return immediately with no actual work having been
done by the workers".  `none` models the fatal precondition violation;
otherwise the result is the gang state paired with the released worker
indices. -/
def continue_task (g : WorkGangState) : Option (WorkGangState × List Nat) :=
  match g.task with
  | none => none
  | some t =>
    match t.status with
    | Status.COMPLETED => some (g, [])
    | Status.YIELDED =>
      some ({ g with
                yieldedWorkers := 0,
                task := some { t with status := Status.ACTIVE } },
            List.range t.actualSize)
    | _ => none

/-- Iterated `continue_task`, threading the possible fatal assertion. -/
def repeat_continue : Nat → WorkGangState → Option WorkGangState
  | 0, g => some g
  | n + 1, g =>
    match continue_task g with
    | some (g', _) => repeat_continue n g'
    | none => none

/-! ## Part 3: round dynamics of a gang

The per-round interleaving of the coordinator and the workers is driven by
`yieldingWorkgroup.cpp` (`wait_for_gang`, the worker `loop`, `yield`,
`abort`), which is not in the excerpt; the step relation below is modelled
from the specification (sections 3, 4.2, 4.3 and 5). -/

/-- One gang running one task: the total worker count, the
`_active_workers` and `_yielded_workers` counters, the attached task's
status (`INACTIVE` when no round has been dispatched yet), and whether the
coordinator is currently blocked inside the coordination barrier
(`wait_for_gang`). -/
structure RoundState where
  total : Nat
  active : Nat
  yielded : Nat
  status : Status
  coordBlocked : Bool
deriving DecidableEq

/-- Modelled from the spec: the coordinator/worker step relation of one
gang invocation, covering the transitions implemented by
`yieldingWorkgroup.cpp` (not in the excerpt).  The constructors follow the
specification's state machine (section 3) and coordinator operations
(section 4.2): dispatch of an inactive task with a positive grant;
a yield request turning the round `YIELDING`; workers honoring the yield
one at a time, the last one completing the `YIELDED` barrier; `continue`
re-dispatching a `YIELDED` round; an abort request from `ACTIVE` or
`YIELDING`; yielded workers unwinding during `ABORTING` until the round is
`ABORTED`; and the normal finish `ACTIVE → COMPLETING → COMPLETED`.  The
barrier (`coordBlocked`) is released exactly when the round reaches
`YIELDED`, `ABORTED` or `COMPLETED`. -/
inductive GStep : RoundState → RoundState → Prop where
  | dispatch (s : RoundState) (r : Nat) :
      s.status = Status.INACTIVE → s.coordBlocked = false →
      1 ≤ r → 1 ≤ s.total →
      GStep s { s with
                  active := min r s.total,
                  yielded := 0,
                  status := Status.ACTIVE,
                  coordBlocked := true }
  | yieldRequest (s : RoundState) :
      s.status = Status.ACTIVE →
      GStep s { s with status := Status.YIELDING }
  | workerYield (s : RoundState) :
      s.status = Status.YIELDING → s.yielded + 1 < s.active →
      GStep s { s with yielded := s.yielded + 1 }
  | lastWorkerYield (s : RoundState) :
      s.status = Status.YIELDING → s.yielded + 1 = s.active →
      GStep s { s with
                  yielded := s.active,
                  status := Status.YIELDED,
                  coordBlocked := false }
  | continueTask (s : RoundState) :
      s.status = Status.YIELDED → s.coordBlocked = false →
      GStep s { s with
                  yielded := 0,
                  status := Status.ACTIVE,
                  coordBlocked := true }
  | abortRequest (s : RoundState) :
      s.status = Status.ACTIVE ∨ s.status = Status.YIELDING →
      GStep s { s with status := Status.ABORTING }
  | workerUnwind (s : RoundState) :
      s.status = Status.ABORTING → 1 ≤ s.yielded →
      GStep s { s with yielded := s.yielded - 1 }
  | finishAbort (s : RoundState) :
      s.status = Status.ABORTING → s.yielded = 0 →
      GStep s { s with status := Status.ABORTED, coordBlocked := false }
  | finishBegin (s : RoundState) :
      s.status = Status.ACTIVE →
      GStep s { s with status := Status.COMPLETING }
  | finishEnd (s : RoundState) :
      s.status = Status.COMPLETING →
      GStep s { s with status := Status.COMPLETED, coordBlocked := false }

/-- The state of a freshly constructed gang of `n` workers with an
inactive, never-dispatched task: no active or yielded workers, no blocked
coordinator. -/
def initialRound (n : Nat) : RoundState :=
  { total := n, active := 0, yielded := 0,
    status := Status.INACTIVE, coordBlocked := false }

/-- Reachability from the initial gang state through the step relation. -/
def Reachable (n : Nat) (s : RoundState) : Prop :=
  Relation.ReflTransGen GStep (initialRound n) s

/-- The legal status-transition graph of the claim: dispatch, the yield
round trip, the abort path, the completion path, and stuttering (a step
that leaves the status unchanged). -/
def legalEdge : Status → Status → Bool
  | Status.INACTIVE, Status.ACTIVE => true
  | Status.ACTIVE, Status.YIELDING => true
  | Status.YIELDING, Status.YIELDED => true
  | Status.YIELDED, Status.ACTIVE => true
  | Status.ACTIVE, Status.ABORTING => true
  | Status.YIELDING, Status.ABORTING => true
  | Status.ABORTING, Status.ABORTED => true
  | Status.ACTIVE, Status.COMPLETING => true
  | Status.COMPLETING, Status.COMPLETED => true
  | a, b => a = b

/-- The inductive invariant of the round dynamics: the counters are
ordered, a `YIELDED` barrier has every active worker parked, and in the
statuses where no worker is parked at a yield point the yielded counter is
zero. -/
def GangInv (s : RoundState) : Prop :=
  s.yielded ≤ s.active ∧ s.active ≤ s.total ∧
  (s.status = Status.YIELDED → s.yielded = s.active) ∧
  ((s.status = Status.INACTIVE ∨ s.status = Status.ACTIVE ∨
    s.status = Status.COMPLETING ∨ s.status = Status.COMPLETED ∨
    s.status = Status.ABORTED) → s.yielded = 0)

/-! ## Part 4: concrete instances used by the witnesses and counterexamples -/

/-- A runtime environment in which the universe is not yet fully
set up, with parallel GC workers configured. -/
def stU : RuntimeEnv :=
  { universeInitComplete := false, parallelGCThreads := 4, vmThreadId := 0,
    cmstId := 1, cmsThreadHasCmsToken := false, vmThreadHasCmsToken := false }

/-- A runtime environment in which the universe is not yet fully set up
and single-threaded collection is configured (`ParallelGCThreads == 0`). -/
def stU0 : RuntimeEnv :=
  { universeInitComplete := false, parallelGCThreads := 0, vmThreadId := 0,
    cmstId := 1, cmsThreadHasCmsToken := false, vmThreadHasCmsToken := false }

/-- A fully set-up runtime environment with parallel GC workers and both
token queries answering positively. -/
def stI : RuntimeEnv :=
  { universeInitComplete := true, parallelGCThreads := 4, vmThreadId := 0,
    cmstId := 1, cmsThreadHasCmsToken := true, vmThreadHasCmsToken := true }

/-- A fully set-up runtime environment with single-threaded collection. -/
def stI0 : RuntimeEnv :=
  { universeInitComplete := true, parallelGCThreads := 0, vmThreadId := 0,
    cmstId := 1, cmsThreadHasCmsToken := false, vmThreadHasCmsToken := false }

/-- A gang (GC task) worker thread. -/
def workerT : Thread := { tid := 7, kind := ThreadKind.gcTaskThread }

/-- The VM (coordinator) thread of `stI`. -/
def vmTok : Thread := { tid := 0, kind := ThreadKind.vmThread }

/-- An ordinary (Java) thread. -/
def javaT : Thread := { tid := 5, kind := ThreadKind.javaThread }

/-- A thread that answers `false` to all four role predicates. -/
def otherU : Thread := { tid := 3, kind := ThreadKind.otherThread }

/-- A second ordinary thread, for the null-lock guard instances. -/
def anyT : Thread := { tid := 2, kind := ThreadKind.javaThread }

/-- A lock held by a thread that is neither the VM thread, the CMS thread,
nor any of the concrete callers above. -/
def strangerLock : Mutex := { owner := some 9 }

/-- A lock held by the VM thread of `stI`. -/
def vmLock : Mutex := { owner := some 0 }

/-- A lock held by `javaT` itself. -/
def ownLock : Mutex := { owner := some 5 }

/-- An unlocked secondary lock. -/
def subLock : Mutex := { owner := none }

/-- A completed task, attached to a gang. -/
def tDone : TaskState :=
  { status := Status.COMPLETED, requestedSize := 2, actualSize := 2, hasGang := true }

/-- An idle gang still holding the completed task `tDone`. -/
def gDone : WorkGangState :=
  { totalWorkers := 4, activeWorkers := 2, yieldedWorkers := 0, task := some tDone }

/-- An idle two-worker gang with no attached task. -/
def g4 : WorkGangState :=
  { totalWorkers := 2, activeWorkers := 0, yieldedWorkers := 0, task := none }

/-- A fresh task requesting zero workers. -/
def t4 : TaskState :=
  { status := Status.INACTIVE, requestedSize := 0, actualSize := 0, hasGang := false }

/-- An idle three-worker gang with no attached task. -/
def gW : WorkGangState :=
  { totalWorkers := 3, activeWorkers := 0, yieldedWorkers := 0, task := none }

/-- A fresh task requesting five workers. -/
def tW : TaskState :=
  { status := Status.INACTIVE, requestedSize := 5, actualSize := 0, hasGang := false }

/-- The gang `gW` right after dispatching `tW`: three granted workers. -/
def gW' : WorkGangState :=
  { totalWorkers := 3, activeWorkers := 3, yieldedWorkers := 0,
    task := some { status := Status.ACTIVE, requestedSize := 5, actualSize := 3,
                   hasGang := true } }

/-- A task currently running on a gang. -/
def t8 : TaskState :=
  { status := Status.ACTIVE, requestedSize := 1, actualSize := 1, hasGang := true }

/-- A gang busy with the running task `t8`. -/
def g8 : WorkGangState :=
  { totalWorkers := 2, activeWorkers := 1, yieldedWorkers := 0, task := some t8 }

/-- A fresh task offered to the busy gang `g8`. -/
def t8b : TaskState :=
  { status := Status.INACTIVE, requestedSize := 1, actualSize := 0, hasGang := false }

/-- A two-worker gang state about to dispatch. -/
def sDispatch : RoundState :=
  { total := 2, active := 0, yielded := 0, status := Status.INACTIVE,
    coordBlocked := false }

/-- A round whose single active worker is about to honor a yield. -/
def sYield : RoundState :=
  { total := 2, active := 1, yielded := 0, status := Status.YIELDING,
    coordBlocked := true }

/-! ## Part 5: helper lemmas -/

/-- Every step of the round dynamics preserves the gang invariant. -/
theorem gstep_preserves_inv {s s' : RoundState} (h : GStep s s')
    (hi : GangInv s) : GangInv s' := by
  obtain ⟨h1, h2, h3, h4⟩ := hi
  cases h with
  | dispatch r hst hcb hr ht =>
    exact ⟨Nat.zero_le _, Nat.min_le_right _ _, by simp, by simp⟩
  | yieldRequest hst =>
    exact ⟨h1, h2, by simp, by simp⟩
  | workerYield hst hlt =>
    exact ⟨Nat.le_of_lt hlt, h2, by simp [hst], by simp [hst]⟩
  | lastWorkerYield hst heq =>
    exact ⟨Nat.le_refl _, h2, by simp, by simp⟩
  | continueTask hst hcb =>
    exact ⟨Nat.zero_le _, h2, by simp, by simp⟩
  | abortRequest hst =>
    exact ⟨h1, h2, by simp, by simp⟩
  | workerUnwind hst hge =>
    exact ⟨Nat.le_trans (Nat.sub_le _ _) h1, h2, by simp [hst], by simp [hst]⟩
  | finishAbort hst hy =>
    exact ⟨h1, h2, by simp, fun _ => hy⟩
  | finishBegin hst =>
    exact ⟨h1, h2, by simp, fun _ => h4 (Or.inr (Or.inl hst))⟩
  | finishEnd hst =>
    exact ⟨h1, h2, by simp, fun _ => h4 (Or.inr (Or.inr (Or.inl hst)))⟩

/-- Every state reachable from a freshly constructed gang satisfies the
gang invariant. -/
theorem reachable_inv {n : Nat} {s : RoundState} (h : Reachable n s) :
    GangInv s := by
  have h' : Relation.ReflTransGen GStep (initialRound n) s := h
  clear h
  induction h' with
  | refl =>
    exact ⟨Nat.le_refl _, Nat.zero_le _, by simp [initialRound], by simp [initialRound]⟩
  | tail hab hbc ih => exact gstep_preserves_inv hbc ih


/-! ## Part 6: the claims -/

/-- C1: every step of a task run on a gang moves the task's status along
the legal transition graph — `INACTIVE → ACTIVE` on dispatch,
`ACTIVE → YIELDING → YIELDED` when a yield is honored by every active
worker, `YIELDED → ACTIVE` on continue, `ACTIVE/YIELDING → ABORTING →
ABORTED` on abort, `ACTIVE → COMPLETING → COMPLETED` on normal finish, or
leaves the status unchanged — and no step leaves `ABORTED` or `COMPLETED`,
which are therefore terminal for the invocation. -/
theorem C1_status_transition_graph :
    ∀ s s' : RoundState, GStep s s' →
      legalEdge s.status s'.status = true ∧
      s.status ≠ Status.ABORTED ∧ s.status ≠ Status.COMPLETED := by
  intro s s' h
  cases h with
  | dispatch r hst hcb hr ht => simp [hst, legalEdge]
  | yieldRequest hst => simp [hst, legalEdge]
  | workerYield hst hlt => simp [hst, legalEdge]
  | lastWorkerYield hst heq => simp [hst, legalEdge]
  | continueTask hst hcb => simp [hst, legalEdge]
  | abortRequest hst => rcases hst with hst | hst <;> simp [hst, legalEdge]
  | workerUnwind hst hge => simp [hst, legalEdge]
  | finishAbort hst hy => simp [hst, legalEdge]
  | finishBegin hst => simp [hst, legalEdge]
  | finishEnd hst => simp [hst, legalEdge]

/-- Witness for C1: the dispatch step out of a concrete idle gang takes
the legal edge `INACTIVE → ACTIVE`. -/
theorem C1_witness :
    legalEdge Status.INACTIVE Status.ACTIVE = true ∧
    Status.INACTIVE ≠ Status.ABORTED ∧ Status.INACTIVE ≠ Status.COMPLETED :=
  C1_status_transition_graph sDispatch _
    (GStep.dispatch sDispatch 1 rfl rfl (by decide) (by decide))

/-- C2: in every reachable state of the round dynamics,
`0 ≤ yielded_workers ≤ active_workers ≤ total_workers`; moreover whenever
the coordination barrier has returned — the round is `YIELDED`, `ABORTED`
or `COMPLETED` — `yielded_workers` is either `0` (completed or aborted) or
equal to `active_workers` (yielded). -/
theorem C2_gang_accounting :
    ∀ (n : Nat) (s : RoundState), Reachable n s →
      (0 ≤ s.yielded ∧ s.yielded ≤ s.active ∧ s.active ≤ s.total) ∧
      ((s.status = Status.YIELDED ∨ s.status = Status.ABORTED ∨
        s.status = Status.COMPLETED) →
        (s.yielded = 0 ∨ s.yielded = s.active)) := by
  intro n s h
  obtain ⟨h1, h2, h3, h4⟩ := reachable_inv h
  refine ⟨⟨Nat.zero_le _, h1, h2⟩, ?_⟩
  rintro (hs | hs | hs)
  · exact Or.inr (h3 hs)
  · exact Or.inl (h4 (Or.inr (Or.inr (Or.inr (Or.inr hs)))))
  · exact Or.inl (h4 (Or.inr (Or.inr (Or.inr (Or.inl hs)))))

/-- Witness for C2: the invariant instantiated at the initial state of a
three-worker gang, which is trivially reachable. -/
theorem C2_witness :
    (0 ≤ (initialRound 3).yielded ∧
     (initialRound 3).yielded ≤ (initialRound 3).active ∧
     (initialRound 3).active ≤ (initialRound 3).total) ∧
    (((initialRound 3).status = Status.YIELDED ∨
      (initialRound 3).status = Status.ABORTED ∨
      (initialRound 3).status = Status.COMPLETED) →
      ((initialRound 3).yielded = 0 ∨
       (initialRound 3).yielded = (initialRound 3).active)) :=
  C2_gang_accounting 3 (initialRound 3) Relation.ReflTransGen.refl

/-- C3: calling `continue_task` on a gang whose attached task is
`COMPLETED` returns immediately with no worker released (empty release
list) and the gang state — task status and both counters — unchanged, and
repeating the call any number of times still leaves the state unchanged. -/
theorem C3_continue_completed_idempotent :
    ∀ (g : WorkGangState) (t : TaskState),
      g.task = some t → t.status = Status.COMPLETED →
      continue_task g = some (g, []) ∧ ∀ n, repeat_continue n g = some g := by
  intro g t hg ht
  have hc : continue_task g = some (g, []) := by
    simp [continue_task, hg, ht]
  refine ⟨hc, ?_⟩
  intro n
  induction n with
  | zero => rfl
  | succ n ih => simp [repeat_continue, hc, ih]

/-- Witness for C3: a concrete idle gang holding a completed task is left
untouched by `continue_task`, even after five repetitions. -/
theorem C3_witness :
    continue_task gDone = some (gDone, []) ∧
    repeat_continue 5 gDone = some gDone :=
  ⟨(C3_continue_completed_idempotent gDone tDone rfl rfl).1,
   (C3_continue_completed_idempotent gDone tDone rfl rfl).2 5⟩

/-- C4 (amended: the task must request at least one worker, since a
dispatch that would grant zero workers is a fatal protocol violation):
for every gang with `N ≥ 1` total workers and every fresh task requesting
`R ≥ 1` workers, `start_task` sets the task's `actual_size` to `min R N`,
resets the counters (`active_workers = min R N` granted workers,
`yielded_workers = 0`), transitions the task to `ACTIVE`, and releases
exactly the worker indices `0 .. min R N - 1`, each exactly once for the
round; and the coordination barrier unblocks the caller only in a state
whose status is `YIELDED`, `ABORTED` or `COMPLETED`. -/
theorem C4_start_task_dispatch :
    ∀ (g : WorkGangState) (t : TaskState),
      1 ≤ g.totalWorkers → 1 ≤ t.requestedSize →
      g.task = none → t.hasGang = false →
      (start_task g t =
        some ({ g with
                  activeWorkers := min t.requestedSize g.totalWorkers,
                  yieldedWorkers := 0,
                  task := some { t with
                                   status := Status.ACTIVE,
                                   actualSize := min t.requestedSize g.totalWorkers,
                                   hasGang := true } },
              List.range (min t.requestedSize g.totalWorkers))) ∧
      (∀ i, i < min t.requestedSize g.totalWorkers →
        (List.range (min t.requestedSize g.totalWorkers)).count i = 1) ∧
      (∀ s s' : RoundState, GStep s s' → s.coordBlocked = true →
        s'.coordBlocked = false →
        s'.status = Status.YIELDED ∨ s'.status = Status.ABORTED ∨
        s'.status = Status.COMPLETED) := by
  intro g t hN hR hg hgang
  have hmin : ¬ min t.requestedSize g.totalWorkers = 0 := by omega
  refine ⟨by simp [start_task, hg, hgang, hmin], ?_, ?_⟩
  · intro i hi
    exact List.count_eq_one_of_mem (List.nodup_range _) (List.mem_range.mpr hi)
  · intro s s' hstep hb hnb
    cases hstep with
    | dispatch r hst hcb hr ht => rw [hcb] at hb; cases hb
    | yieldRequest hst => rw [hb] at hnb; cases hnb
    | workerYield hst hlt => rw [hb] at hnb; cases hnb
    | lastWorkerYield hst heq => exact Or.inl rfl
    | continueTask hst hcb => rw [hcb] at hb; cases hb
    | abortRequest hst => rw [hb] at hnb; cases hnb
    | workerUnwind hst hge => rw [hb] at hnb; cases hnb
    | finishAbort hst hy => exact Or.inr (Or.inl rfl)
    | finishBegin hst => rw [hb] at hnb; cases hnb
    | finishEnd hst => exact Or.inr (Or.inr rfl)

/-- Counterexample for C4 as stated: the claim quantifies over every
requested size `R`, but a task requesting `R = 0` workers on a two-worker
gang is dispatched to `min 0 2 = 0` granted workers, which is the "running
with zero granted workers" protocol violation: `start_task` halts on the
fatal assertion instead of setting the task `ACTIVE`. -/
theorem C4_counterexample :
    1 ≤ g4.totalWorkers ∧ t4.requestedSize = 0 ∧ g4.task = none ∧
    t4.hasGang = false ∧ start_task g4 t4 = none := by decide

/-- Witness for C4: dispatching a fresh task requesting five workers on an
idle three-worker gang grants three workers, releases indices 0,1,2 once
each, and a concrete barrier-releasing step ends in `YIELDED`. -/
theorem C4_witness :
    start_task gW tW = some (gW', List.range 3) ∧
    (List.range 3).count 2 = 1 ∧
    (Status.YIELDED = Status.YIELDED ∨ Status.YIELDED = Status.ABORTED ∨
     Status.YIELDED = Status.COMPLETED) := by
  have h := C4_start_task_dispatch gW tW (by decide) (by decide) rfl rfl
  exact ⟨h.1, h.2.1 2 (by decide),
         h.2.2 sYield _ (GStep.lastWorkerYield sYield rfl rfl) rfl rfl⟩

/-- C8: dispatching a task on a gang that is already running one is a
fatal assertion, not a recoverable rejection: `start_task` on a gang whose
`_task` is non-null halts, and (from the header's `set_gang` assertion,
`yieldingWorkgroup.hpp` lines 104-107) attaching a task whose `_gang`
reference is already non-null to another gang fires the assertion. -/
theorem C8_dispatch_while_busy :
    (∀ (g : WorkGangState) (t running : TaskState),
      g.task = some running → start_task g t = none) ∧
    (∀ a b : Nat, set_gang (some a) (some b) = none) := by
  constructor
  · intro g t running hg
    simp [start_task, hg]
  · intro a b
    simp [set_gang]

/-- Witness for C8: offering a fresh task to the concrete busy gang `g8`
halts, as does re-attaching an attached task to another gang. -/
theorem C8_witness :
    start_task g8 t8b = none ∧ set_gang (some 0) (some 1) = none :=
  ⟨C8_dispatch_while_busy.1 g8 t8b t8 rfl, C8_dispatch_while_busy.2 0 1⟩

/-- C5 (amended: assuming the runtime is fully initialized — before full
initialization `assert_locked` returns without checking anything, cf.
cmsLockVerifier.cpp lines 39-41): with a non-null lock, parallel workers
configured and the caller classified as a GC task (worker) thread, the
check passes if and only if the lock's owner is the VM (coordinator)
thread or the CMS (collector) thread; in particular a worker holding the
lock itself (its identity being neither of those) fails the check. -/
theorem C5_worker_lock_delegation :
    ∀ (st : RuntimeEnv) (w : Thread) (l : Mutex) (pl : Option Mutex),
      st.universeInitComplete = true → 0 < st.parallelGCThreads →
      w.kind = ThreadKind.gcTaskThread →
      (CMSLockVerifier.assert_locked st w (some l) pl = true ↔
        (l.owner = some st.vmThreadId ∨ l.owner = some st.cmstId)) ∧
      (w.tid ≠ st.vmThreadId → w.tid ≠ st.cmstId → l.owner = some w.tid →
        CMSLockVerifier.assert_locked st w (some l) pl = false) := by
  intro st w l pl hinit hpar hkind
  have hne : ¬ st.parallelGCThreads = 0 := by omega
  constructor
  · simp [CMSLockVerifier.assert_locked, hinit, hne, hkind]
  · intro hv hc hl
    simp [CMSLockVerifier.assert_locked, hinit, hne, hkind, hl, hv, hc]

/-- Counterexample for C5 as stated: before the universe is fully
initialized, `assert_locked` returns immediately, so a worker-thread call
with parallel workers configured passes although the lock is owned by a
thread that is neither the VM thread nor the CMS thread — refuting the
claim's "only if" direction. -/
theorem C5_counterexample :
    0 < stU.parallelGCThreads ∧ workerT.kind = ThreadKind.gcTaskThread ∧
    CMSLockVerifier.assert_locked stU workerT (some strangerLock) none = true ∧
    strangerLock.owner ≠ some stU.vmThreadId ∧
    strangerLock.owner ≠ some stU.cmstId := by decide

/-- Witness for C5: in the fully set-up runtime `stI`, a worker-thread
call with the lock held by the VM thread passes. -/
theorem C5_witness :
    CMSLockVerifier.assert_locked stI workerT (some vmLock) none = true :=
  (C5_worker_lock_delegation stI workerT vmLock none rfl (by decide) rfl).1.mpr
    (Or.inl rfl)

/-- C6 (amended: assuming the runtime is fully initialized and — per the
`assert(p_lock == NULL)` guard on the null-lock branch, cf. C10 — a null
secondary lock): with `lock == NULL` the check passes exactly when the
caller is the VM (coordinator) thread and the VM thread holds the CMS
token, or the caller is the concurrent-GC (collector) thread, is the
designated singleton CMS thread and the CMS thread holds the token, or
the caller is a GC task (worker) thread; every other role fails. -/
theorem C6_null_lock_roles :
    ∀ (st : RuntimeEnv) (t : Thread),
      st.universeInitComplete = true →
      (CMSLockVerifier.assert_locked st t none none = true ↔
        (t.kind = ThreadKind.gcTaskThread ∨
         (t.kind = ThreadKind.concGCThread ∧ t.tid = st.cmstId ∧
          st.cmsThreadHasCmsToken = true) ∨
         (t.kind = ThreadKind.vmThread ∧ st.vmThreadHasCmsToken = true))) := by
  intro st t hinit
  cases hk : t.kind <;> simp [CMSLockVerifier.assert_locked, hinit, hk]

/-- Counterexample for C6 as stated: the claim does not constrain the
secondary lock, but a null-lock call with a non-null secondary lock fails
on the `assert(p_lock == NULL)` guard even though the caller is the
coordinator (VM) thread holding the CMS token — so "passes exactly when
the caller is coordinator/collector/worker" is false as stated. -/
theorem C6_counterexample :
    vmTok.kind = ThreadKind.vmThread ∧ stI.vmThreadHasCmsToken = true ∧
    CMSLockVerifier.assert_locked stI vmTok none (some subLock) = false := by
  decide

/-- Witness for C6: the designated CMS thread, holding the CMS token,
passes the null-lock check in the fully set-up runtime `stI`. -/
theorem C6_witness :
    CMSLockVerifier.assert_locked stI (Thread.mk 1 ThreadKind.concGCThread)
      none none = true :=
  (C6_null_lock_roles stI (Thread.mk 1 ThreadKind.concGCThread) rfl).mpr
    (Or.inr (Or.inl ⟨rfl, rfl, rfl⟩))

/-- C7 (amended: assuming the runtime is fully initialized, cf. C9): with
a non-null lock, (a) under single-threaded collection
(`ParallelGCThreads == 0`) the check passes exactly when the caller holds
the lock, the secondary lock being ignored; (b) with parallel workers
configured, a VM (coordinator), concurrent-GC (collector) or Java
(ordinary) caller passes exactly when it holds the lock directly and any
supplied secondary lock is either unlocked or held by the caller itself. -/
theorem C7_direct_holder :
    ∀ (st : RuntimeEnv) (t : Thread) (l : Mutex) (pl : Option Mutex),
      st.universeInitComplete = true →
      (st.parallelGCThreads = 0 →
        (CMSLockVerifier.assert_locked st t (some l) pl = true ↔
          l.owner = some t.tid)) ∧
      (0 < st.parallelGCThreads →
        (t.kind = ThreadKind.vmThread ∨ t.kind = ThreadKind.concGCThread ∨
         t.kind = ThreadKind.javaThread) →
        (CMSLockVerifier.assert_locked st t (some l) pl = true ↔
          (l.owner = some t.tid ∧
           ∀ p, pl = some p → (p.owner = none ∨ p.owner = some t.tid)))) := by
  intro st t l pl hinit
  constructor
  · intro hz
    simp [CMSLockVerifier.assert_locked, hinit, hz, Mutex.ownedBySelf]
  · intro hpos hk
    have hne : ¬ st.parallelGCThreads = 0 := by omega
    rcases hk with hk | hk | hk <;>
      cases pl with
      | none =>
        simp [CMSLockVerifier.assert_locked, hinit, hne, hk, Mutex.ownedBySelf]
      | some p =>
        cases hp : p.owner <;>
          simp [CMSLockVerifier.assert_locked, hinit, hne, hk,
                Mutex.ownedBySelf, Mutex.isLocked, hp]

/-- Counterexample for C7 as stated: before the universe is fully
initialized, a call under single-threaded collection passes although the
caller does not hold the lock — refuting "passes exactly when the calling
thread holds the lock". -/
theorem C7_counterexample :
    stU0.parallelGCThreads = 0 ∧
    CMSLockVerifier.assert_locked stU0 javaT (some strangerLock) none = true ∧
    strangerLock.owner ≠ some javaT.tid := by decide

/-- Witness for C7: in the fully set-up single-collector runtime `stI0`,
an ordinary thread holding the lock itself passes. -/
theorem C7_witness :
    CMSLockVerifier.assert_locked stI0 javaT (some ownLock) none = true :=
  (((C7_direct_holder stI0 javaT ownLock none rfl).1) rfl).mpr rfl

/-- C9: whenever the runtime is not yet fully initialized,
`assert_locked` returns immediately and passes, for every caller and
every combination of primary and secondary lock — no verification failure
can be raised before full initialization. -/
theorem C9_skip_before_full_init :
    ∀ (st : RuntimeEnv) (t : Thread) (lock p_lock : Option Mutex),
      st.universeInitComplete = false →
      CMSLockVerifier.assert_locked st t lock p_lock = true := by
  intro st t lock p_lock h
  simp [CMSLockVerifier.assert_locked, h]

/-- Witness for C9: an unclassifiable thread calling with a null primary
lock and a non-null secondary lock — both of which would fail after
initialization — still passes beforehand. -/
theorem C9_witness :
    CMSLockVerifier.assert_locked stU otherU none (some strangerLock) = true :=
  C9_skip_before_full_init stU otherU none (some strangerLock) rfl

/-- C10 (amended: once the runtime is fully initialized — before that the
whole check is skipped, cf. C9): every call with a null primary lock and a
non-null secondary lock fires the fatal `assert(p_lock == NULL)` guard,
whatever the caller's role; under the precondition that a null primary
lock implies a null secondary lock, that error branch is unreachable. -/
theorem C10_null_lock_plock_guard :
    ∀ (st : RuntimeEnv) (t : Thread) (p : Mutex),
      st.universeInitComplete = true →
      CMSLockVerifier.assert_locked st t none (some p) = false := by
  intro st t p h
  simp [CMSLockVerifier.assert_locked, h]

/-- Counterexample for C10 as stated: before the universe is fully
initialized, a call with a null primary lock and non-null secondary lock
does not take the fatal path — it returns successfully. -/
theorem C10_counterexample :
    CMSLockVerifier.assert_locked stU anyT none (some strangerLock) = true := by
  decide

/-- Witness for C10: after initialization, the same shape of call fires
the guard. -/
theorem C10_witness :
    CMSLockVerifier.assert_locked stI anyT none (some subLock) = false :=
  C10_null_lock_plock_guard stI anyT subLock rfl
